import Mathlib

/-!
Verification of the motion-detector repository
(src/motion_detector/{config,camera,notifier}.py).

The pure decision logic of the source is embedded shallowly:

* `Config` mirrors the process-wide `Config` class of config.py; its
  fields are the environment-derived settings, and `Config.validate`
  is the validation method.
* `Frame` is a term model of an OpenCV image array.  OpenCV drawing
  calls (`cv2.rectangle`, `cv2.drawContours`, `cv2.addWeighted`)
  live in an external C++ library; what matters for the design claims
  is only which array object each call writes into, so each call is
  modelled as a constructor recording the operation.  A call that
  mutates an array in place (`cv2.rectangle`) is modelled by returning
  the new value of the aliased array to the caller.
* `Contour` stands for a contour returned by `cv2.findContours`,
  carrying the two measures the source reads from it
  (`cv2.contourArea`, `cv2.boundingRect`).  Contour extraction itself
  is external library code, so the contour list is a parameter of
  `MotionDetector.detect_motion`.
* `NotificationManager` mirrors notifier.py.  Timestamps
  (`datetime.now()`) are modelled as rational seconds; the
  fallible external effects inside `send_email_notification`
  (JPEG encoding of the evidence frame, the SMTP transaction) are
  parameters `encodeOk` / `transportOk`: `false` means the
  corresponding Python call raised.
* `MotionDetector.runStep` is one iteration of the `run` loop of
  camera.py, from a successfully read frame to the optional motion
  decision and the optional callback invocation.
-/

/-- Mirrors the `Config` class of config.py: the settings read from the
environment, with their types as annotated in the source (Python
`float` values are modelled as rationals). -/
structure Config where
  CAMERA_INDEX : Int
  MOTION_THRESHOLD : ℚ
  MIN_CONTOUR_AREA : Int
  NOTIFICATION_ENABLED : Bool
  EMAIL_ENABLED : Bool
  SMTP_SERVER : String
  SMTP_PORT : Int
  EMAIL_FROM : String
  EMAIL_TO : String
  EMAIL_PASSWORD : String
  NOTIFICATION_COOLDOWN_SECONDS : Int
deriving Repr, DecidableEq

/-- Mirrors `Config.validate` of config.py: collects an error message for
each missing credential when email notifications are enabled.  Python's
`not s` on a string is true exactly for the empty string. -/
def Config.validate (cfg : Config) : List String :=
  if cfg.EMAIL_ENABLED && cfg.NOTIFICATION_ENABLED then
    (if cfg.EMAIL_FROM = "" then
      ["EMAIL_FROM is required when email notifications are enabled"] else []) ++
    (if cfg.EMAIL_TO = "" then
      ["EMAIL_TO is required when email notifications are enabled"] else []) ++
    (if cfg.EMAIL_PASSWORD = "" then
      ["EMAIL_PASSWORD is required when email notifications are enabled"] else [])
  else []

/-- A bounding rectangle as returned by `cv2.boundingRect`. -/
structure Rect where
  x : Int
  y : Int
  w : Int
  h : Int
deriving Repr, DecidableEq

/-- A contour as returned by `cv2.findContours`, carrying the two
measures the source reads from it: `cv2.contourArea` (a float) and
`cv2.boundingRect`. -/
structure Contour where
  area : ℚ
  rect : Rect
deriving Repr, DecidableEq

/-- Term model of an OpenCV image array.  `raw` is a frame as read from
the camera; the other constructors record the drawing operations the
source applies.  Two frames are the same array content iff they are the
same term. -/
inductive Frame where
  | raw (id : Nat)
  | withRect (f : Frame) (r : Rect)
  | withContours (f : Frame) (cs : List Contour)
  | blend (f : Frame) (alpha : ℚ) (g : Frame) (beta : ℚ)
deriving Repr, DecidableEq

/-- Number of drawing operations stacked on a frame; a drawing call
always yields a strictly deeper term. -/
def Frame.depth : Frame → Nat
  | .raw _ => 0
  | .withRect f _ => f.depth + 1
  | .withContours f _ => f.depth + 1
  | .blend f _ g _ => f.depth + g.depth + 1

/-- The `for contour in contours:` loop of `MotionDetector._detect_motion`
(camera.py).  State is `(motion_detected, motion_areas, frame)`; for a
contour of area strictly above `m` the flag is set, the contour is
appended, and `cv2.rectangle` draws its bounding box onto the frame
array in place. -/
def detectLoop (m : ℚ) : List Contour → Bool × List Contour × Frame → Bool × List Contour × Frame
  | [], st => st
  | c :: cs, st =>
      if c.area > m then
        detectLoop m cs (true, st.2.1 ++ [c], Frame.withRect st.2.2 c.rect)
      else
        detectLoop m cs st

/-- Result of `MotionDetector._detect_motion`: the returned pair plus the
value of the caller's frame array after the call (the source draws
bounding boxes into that array in place, so it may differ from the
array's value before the call). -/
structure DetectOutcome where
  motion_detected : Bool
  processed : Frame
  inputAfter : Frame
deriving Repr, DecidableEq

/-- Mirrors `MotionDetector._detect_motion` (camera.py) from the point
where the contour list has been extracted from the cleaned foreground
mask: the significance loop, the overlay copy with the significant
contours drawn filled, and the `cv2.addWeighted(frame, 0.7, overlay,
0.3, 0)` blend that the local name `frame` is rebound to.  The mask
pipeline (background subtraction, morphology, blur, `cv2.findContours`)
is external library code and enters through `contours`. -/
def MotionDetector.detect_motion (cfg : Config) (contours : List Contour)
    (frame : Frame) : DetectOutcome :=
  let res := detectLoop (cfg.MIN_CONTOUR_AREA : ℚ) contours (false, [], frame)
  let overlay := Frame.withContours res.2.2 res.2.1
  let processed := Frame.blend res.2.2 (7/10) overlay (3/10)
  ⟨res.1, processed, res.2.2⟩

/-- Mirrors `MotionDetector.__init__`: `self.camera_index = camera_index
or Config.CAMERA_INDEX`.  Python truthiness: `None` and `0` are falsy,
so both fall back to the configured default. -/
def MotionDetector.initCameraIndex (camera_index : Option Int) (cfg : Config) : Int :=
  match camera_index with
  | none => cfg.CAMERA_INDEX
  | some c => if c = 0 then cfg.CAMERA_INDEX else c

/-- The per-run mutable state of the `run` loop that the claims touch. -/
structure DetectorState where
  frame_count : Nat
deriving Repr, DecidableEq

/-- Observable outcome of one `run`-loop iteration: the updated state,
the motion decision (`none` when no detection was performed for the
frame), and the frame passed to the `on_motion_detected` callback
(`none` when the callback was not invoked). -/
structure StepResult where
  state : DetectorState
  decision : Option Bool
  callbackFrame : Option Frame
deriving Repr, DecidableEq

/-- One iteration of `MotionDetector.run` (camera.py) after a successful
`cap.read()`: `frame_count` is incremented first; while it is below the
literal 30 the body `continue`s without calling `_detect_motion`;
otherwise motion is detected and, when detected, the callback receives
the caller's `frame` variable — which is the input array after
`_detect_motion` drew into it in place. -/
def MotionDetector.runStep (cfg : Config) (st : DetectorState)
    (contours : List Contour) (frame : Frame) : StepResult :=
  let fc := st.frame_count + 1
  if fc < 30 then
    ⟨⟨fc⟩, none, none⟩
  else
    let o := MotionDetector.detect_motion cfg contours frame
    ⟨⟨fc⟩, some o.motion_detected,
      if o.motion_detected then some o.inputAfter else none⟩

/-- Mirrors the `NotificationManager` instance state of notifier.py.
`datetime` values are modelled as rational seconds since an arbitrary
epoch. -/
structure NotificationManager where
  last_notification_time : Option ℚ
deriving Repr, DecidableEq

/-- Mirrors `NotificationManager._is_cooldown_active`: false when no
notification was ever sent (`None` is the only falsy value here — a
`datetime` object is always truthy), else tests whether the elapsed
seconds are strictly below the configured cooldown. -/
def NotificationManager.is_cooldown_active (mgr : NotificationManager)
    (cfg : Config) (now : ℚ) : Bool :=
  match mgr.last_notification_time with
  | none => false
  | some t => decide (now - t < (cfg.NOTIFICATION_COOLDOWN_SECONDS : ℚ))

/-- Observable outcome of `send_email_notification`: the returned bool,
whether the evidence image ended up attached to the message, and the
manager state after the call. -/
structure SendOutcome where
  sent : Bool
  imageAttached : Bool
  mgr : NotificationManager
deriving Repr, DecidableEq

/-- Mirrors `NotificationManager.send_email_notification` (notifier.py).
Returns False when email or notifications are disabled, or during
cooldown.  Otherwise the message is built; when an evidence frame is
given, JPEG encoding and attachment are attempted inside a nested
`try` whose failure (`encodeOk = false`) only skips the attachment.
The SMTP transaction follows; its failure (`transportOk = false`) is
caught by the outer `except`, returning False before the line
`self.last_notification_time = datetime.now()` is reached.  On success
the timestamp is set and True returned. -/
def NotificationManager.send_email_notification (cfg : Config)
    (mgr : NotificationManager) (now : ℚ) (frame : Option Frame)
    (encodeOk : Bool) (transportOk : Bool) : SendOutcome :=
  if !cfg.EMAIL_ENABLED || !cfg.NOTIFICATION_ENABLED then
    ⟨false, false, mgr⟩
  else if mgr.is_cooldown_active cfg now then
    ⟨false, false, mgr⟩
  else
    let attached := match frame with
      | some _ => encodeOk
      | none => false
    if transportOk then
      ⟨true, attached, ⟨some now⟩⟩
    else
      ⟨false, attached, mgr⟩

/-- Mirrors `NotificationManager.notify` (notifier.py): returns False
when notifications are disabled; otherwise `success` starts False and
email is the only channel that can set it. -/
def NotificationManager.notify (cfg : Config) (mgr : NotificationManager)
    (now : ℚ) (frame : Option Frame) (encodeOk : Bool) (transportOk : Bool) :
    Bool × NotificationManager :=
  if !cfg.NOTIFICATION_ENABLED then
    (false, mgr)
  else if cfg.EMAIL_ENABLED then
    let o := NotificationManager.send_email_notification cfg mgr now frame encodeOk transportOk
    (o.sent || false, o.mgr)
  else
    (false, mgr)

/-- The configuration built from the defaults hard-coded in config.py
(no environment overrides). -/
def defaultConfig : Config where
  CAMERA_INDEX := 0
  MOTION_THRESHOLD := 1000
  MIN_CONTOUR_AREA := 500
  NOTIFICATION_ENABLED := true
  EMAIL_ENABLED := true
  SMTP_SERVER := "smtp.gmail.com"
  SMTP_PORT := 587
  EMAIL_FROM := "alexhtripp@gmail.com"
  EMAIL_TO := "aht23490@ucmo.edu"
  EMAIL_PASSWORD := "txqb ktqk wlfs afqi"
  NOTIFICATION_COOLDOWN_SECONDS := 60

/-- Configuration with every credential field empty, as in the
validation scenario of the spec. -/
def emptyCredsConfig : Config :=
  { defaultConfig with EMAIL_FROM := "", EMAIL_TO := "", EMAIL_PASSWORD := "" }

/-- Configuration with notifications on but email off. -/
def emailOffConfig : Config :=
  { defaultConfig with EMAIL_ENABLED := false }

/-- The detected flag accumulated by the contour loop: it ends true iff
it began true or some contour's area strictly exceeds the threshold. -/
theorem detectLoop_fst (m : ℚ) (cs : List Contour) (st : Bool × List Contour × Frame) :
    (detectLoop m cs st).1 = (st.1 || cs.any fun c => decide (c.area > m)) := by
  induction cs generalizing st with
  | nil => simp [detectLoop]
  | cons c cs ih =>
    simp only [detectLoop, List.any_cons]
    by_cases h : c.area > m
    · simp [h, ih]
    · simp [h, ih]

/-- The frame array threaded through the contour loop ends as the start
frame with one bounding box drawn per contour above the threshold. -/
theorem detectLoop_frame (m : ℚ) (cs : List Contour) (st : Bool × List Contour × Frame) :
    (detectLoop m cs st).2.2 =
      (cs.filter fun c => decide (c.area > m)).foldl
        (fun f c => Frame.withRect f c.rect) st.2.2 := by
  induction cs generalizing st with
  | nil => simp [detectLoop]
  | cons c cs ih =>
    simp only [detectLoop, List.filter_cons]
    by_cases h : c.area > m
    · simp [h, ih]
    · simp [h, ih]

/-- Drawing a list of bounding boxes adds exactly one level of depth per
box. -/
theorem depth_foldl_withRect (l : List Contour) (f : Frame) :
    (l.foldl (fun g c => Frame.withRect g c.rect) f).depth = f.depth + l.length := by
  induction l generalizing f with
  | nil => simp
  | cons c cs ih =>
    simp only [List.foldl_cons, ih, Frame.depth, List.length_cons]
    omega

/-- C1: for every frame whose index (the incremented frame count) is
below the warm-up length 30, the run loop performs no motion detection,
never reports a detected-true decision, and never invokes the motion
callback, regardless of the frame content and of the contours the mask
pipeline would yield. -/
theorem warmup_suppresses_decision (cfg : Config) (st : DetectorState)
    (cs : List Contour) (f : Frame) (h : st.frame_count + 1 < 30) :
    (MotionDetector.runStep cfg st cs f).decision = none ∧
    (MotionDetector.runStep cfg st cs f).callbackFrame = none := by
  simp [MotionDetector.runStep, h]

/-- Witness for C1: the very first frame, even when it carries a contour
of area 2000 that would otherwise trigger detection, yields no decision
and no callback. -/
theorem warmup_suppresses_decision_witness :
    (MotionDetector.runStep defaultConfig ⟨0⟩ [⟨2000, ⟨5, 5, 20, 20⟩⟩] (Frame.raw 0)).decision
      = none ∧
    (MotionDetector.runStep defaultConfig ⟨0⟩ [⟨2000, ⟨5, 5, 20, 20⟩⟩] (Frame.raw 0)).callbackFrame
      = none :=
  warmup_suppresses_decision defaultConfig ⟨0⟩ [⟨2000, ⟨5, 5, 20, 20⟩⟩] (Frame.raw 0) (by decide)

/-- C2: the detection stage reports motion exactly when some contour's
area strictly exceeds the configured minimum contour area; a single
region of area exactly the threshold is not significant, and one of
area threshold + 1 is. -/
theorem motion_significance_strict_threshold (cfg : Config) (cs : List Contour)
    (f g : Frame) (r : Rect) :
    ((MotionDetector.detect_motion cfg cs f).motion_detected = true ↔
      ∃ c ∈ cs, c.area > (cfg.MIN_CONTOUR_AREA : ℚ)) ∧
    (MotionDetector.detect_motion cfg [⟨(cfg.MIN_CONTOUR_AREA : ℚ), r⟩] g).motion_detected
      = false ∧
    (MotionDetector.detect_motion cfg [⟨(cfg.MIN_CONTOUR_AREA : ℚ) + 1, r⟩] g).motion_detected
      = true := by
  refine ⟨?_, ?_, ?_⟩
  · rw [show (MotionDetector.detect_motion cfg cs f).motion_detected
        = (detectLoop (cfg.MIN_CONTOUR_AREA : ℚ) cs (false, [], f)).1 from rfl,
      detectLoop_fst]
    simp [List.any_eq_true]
  · rw [show (MotionDetector.detect_motion cfg [⟨(cfg.MIN_CONTOUR_AREA : ℚ), r⟩] g).motion_detected
        = (detectLoop (cfg.MIN_CONTOUR_AREA : ℚ) [⟨(cfg.MIN_CONTOUR_AREA : ℚ), r⟩]
            (false, [], g)).1 from rfl, detectLoop_fst]
    simp
  · rw [show (MotionDetector.detect_motion cfg [⟨(cfg.MIN_CONTOUR_AREA : ℚ) + 1, r⟩]
          g).motion_detected
        = (detectLoop (cfg.MIN_CONTOUR_AREA : ℚ) [⟨(cfg.MIN_CONTOUR_AREA : ℚ) + 1, r⟩]
            (false, [], g)).1 from rfl, detectLoop_fst]
    simp

/-- C8: passing the explicit camera index 0 to the constructor is
indistinguishable from passing no index at all — the truthiness
fallback `camera_index or Config.CAMERA_INDEX` discards the falsy 0 and
uses the configured default camera index instead. -/
theorem camera_index_zero_replaced_by_default (cfg : Config) :
    MotionDetector.initCameraIndex (some 0) cfg = cfg.CAMERA_INDEX ∧
    MotionDetector.initCameraIndex (some 0) cfg = MotionDetector.initCameraIndex none cfg := by
  simp [MotionDetector.initCameraIndex]

/-- Counterexample to C5 as stated: with one contour of area 2000
(above the default threshold 500) the detection stage draws a bounding
box into its input frame in place, so the caller's frame array after
the call differs from the raw frame that was handed in. -/
theorem detect_motion_mutates_input_cex :
    ¬ (MotionDetector.detect_motion defaultConfig [⟨2000, ⟨5, 5, 20, 20⟩⟩]
        (Frame.raw 0)).inputAfter = Frame.raw 0 := by
  decide

/-- C5 amended: the processed frame with overlays is indeed a derived
copy, but the stage mutates its input frame in place whenever a
significant region exists: the input frame is unchanged after the call
iff no contour's area exceeds the minimum contour area. -/
theorem detect_motion_input_unchanged_iff_no_significant (cfg : Config)
    (cs : List Contour) (f : Frame) :
    (MotionDetector.detect_motion cfg cs f).inputAfter = f ↔
      ∀ c ∈ cs, c.area ≤ (cfg.MIN_CONTOUR_AREA : ℚ) := by
  have key : (MotionDetector.detect_motion cfg cs f).inputAfter
      = (cs.filter fun c => decide (c.area > (cfg.MIN_CONTOUR_AREA : ℚ))).foldl
          (fun g c => Frame.withRect g c.rect) f := by
    rw [show (MotionDetector.detect_motion cfg cs f).inputAfter
        = (detectLoop (cfg.MIN_CONTOUR_AREA : ℚ) cs (false, [], f)).2.2 from rfl,
      detectLoop_frame]
  rw [key]
  constructor
  · intro h c hc
    by_contra hgt
    push_neg at hgt
    have hd := congrArg Frame.depth h
    rw [depth_foldl_withRect] at hd
    have hlen : (cs.filter fun c => decide (c.area > (cfg.MIN_CONTOUR_AREA : ℚ))).length = 0 := by
      omega
    rw [List.length_eq_zero, List.filter_eq_nil_iff] at hlen
    have := hlen c hc
    simp at this
    exact absurd hgt (not_lt.mpr this)
  · intro h
    have hnil : cs.filter (fun c => decide (c.area > (cfg.MIN_CONTOUR_AREA : ℚ))) = [] := by
      rw [List.filter_eq_nil_iff]
      intro c hc
      simp [not_lt]
      exact h c hc
    rw [hnil]
    rfl

/-- C3: with a 60-second cooldown and a last alert at time `t`, the
cooldown-active predicate at time `t + s` holds exactly when `s < 60`,
and with notifications enabled and a working transport an attempt at
`t + s` is suppressed exactly when `s < 60` and sent otherwise. -/
theorem cooldown_strict_boundary (cfg : Config)
    (h60 : cfg.NOTIFICATION_COOLDOWN_SECONDS = 60)
    (hn : cfg.NOTIFICATION_ENABLED = true) (he : cfg.EMAIL_ENABLED = true)
    (t s : ℚ) (frame : Option Frame) (encodeOk : Bool) :
    (NotificationManager.is_cooldown_active ⟨some t⟩ cfg (t + s) = decide (s < 60)) ∧
    ((NotificationManager.send_email_notification cfg ⟨some t⟩ (t + s) frame encodeOk
        true).sent = !decide (s < 60)) := by
  have hel : t + s - t = s := by ring
  have hc : NotificationManager.is_cooldown_active ⟨some t⟩ cfg (t + s) = decide (s < 60) := by
    simp only [NotificationManager.is_cooldown_active, h60, hel]
    norm_num
  refine ⟨hc, ?_⟩
  simp only [NotificationManager.send_email_notification, hn, he, hc]
  by_cases hs : s < 60 <;> simp [hs]

/-- Witness for C3 at a concrete boundary input: last alert at time 0,
attempt at 0 + 59 seconds. -/
theorem cooldown_strict_boundary_witness :
    (NotificationManager.is_cooldown_active ⟨some 0⟩ defaultConfig (0 + 59)
      = decide ((59 : ℚ) < 60)) ∧
    ((NotificationManager.send_email_notification defaultConfig ⟨some 0⟩ (0 + 59) none true
        true).sent = !decide ((59 : ℚ) < 60)) :=
  cooldown_strict_boundary defaultConfig rfl rfl rfl 0 59 none true

/-- C4: when the SMTP transaction raises a transport error, the call
returns False and the manager state — in particular
`last_notification_time` — is exactly what it was before the attempt. -/
theorem transport_failure_preserves_state (cfg : Config) (mgr : NotificationManager)
    (now : ℚ) (frame : Option Frame) (encodeOk : Bool) :
    (NotificationManager.send_email_notification cfg mgr now frame encodeOk false).sent
      = false ∧
    (NotificationManager.send_email_notification cfg mgr now frame encodeOk false).mgr
      = mgr := by
  unfold NotificationManager.send_email_notification
  by_cases h1 : (!cfg.EMAIL_ENABLED || !cfg.NOTIFICATION_ENABLED) = true
  · simp [h1]
  · by_cases h2 : mgr.is_cooldown_active cfg now = true <;> simp [h1, h2]

/-- C9: the last-alert timestamp is updated exactly on a successful
send: the manager state after any call equals the fresh timestamp when
the call returned True and the pre-call state when it returned False
(disabled, cooldown, or any failure). -/
theorem last_notification_time_updated_iff_sent (cfg : Config)
    (mgr : NotificationManager) (now : ℚ) (frame : Option Frame)
    (encodeOk transportOk : Bool) :
    (NotificationManager.send_email_notification cfg mgr now frame encodeOk transportOk).mgr
      = if (NotificationManager.send_email_notification cfg mgr now frame encodeOk
              transportOk).sent
        then ⟨some now⟩ else mgr := by
  unfold NotificationManager.send_email_notification
  by_cases h1 : (!cfg.EMAIL_ENABLED || !cfg.NOTIFICATION_ENABLED) = true
  · simp [h1]
  · by_cases h2 : mgr.is_cooldown_active cfg now = true
    · simp [h1, h2]
    · by_cases h3 : transportOk = true <;> simp [h1, h2, h3]

/-- C6: with notifications and email both enabled and all three
credential fields empty, validation returns exactly the three error
messages, one per missing field, in source order. -/
theorem validate_lists_all_missing_fields (cfg : Config)
    (hn : cfg.NOTIFICATION_ENABLED = true) (he : cfg.EMAIL_ENABLED = true)
    (hf : cfg.EMAIL_FROM = "") (ht : cfg.EMAIL_TO = "") (hp : cfg.EMAIL_PASSWORD = "") :
    cfg.validate =
      ["EMAIL_FROM is required when email notifications are enabled",
       "EMAIL_TO is required when email notifications are enabled",
       "EMAIL_PASSWORD is required when email notifications are enabled"] ∧
    cfg.validate.length = 3 := by
  simp [Config.validate, hn, he, hf, ht, hp]

/-- Witness for C6 at the concrete all-credentials-empty configuration. -/
theorem validate_lists_all_missing_fields_witness :
    emptyCredsConfig.validate =
      ["EMAIL_FROM is required when email notifications are enabled",
       "EMAIL_TO is required when email notifications are enabled",
       "EMAIL_PASSWORD is required when email notifications are enabled"] ∧
    emptyCredsConfig.validate.length = 3 :=
  validate_lists_all_missing_fields emptyCredsConfig rfl rfl rfl rfl rfl

/-- C7: when an evidence frame is supplied but its JPEG encoding or
attachment raises, the failure is caught locally: with notifications
enabled, no cooldown and a working transport the textual notification
is still sent (True is returned) and no image is attached. -/
theorem encoding_failure_still_sends (cfg : Config)
    (hn : cfg.NOTIFICATION_ENABLED = true) (he : cfg.EMAIL_ENABLED = true)
    (mgr : NotificationManager) (now : ℚ) (f : Frame)
    (hcd : mgr.is_cooldown_active cfg now = false) :
    (NotificationManager.send_email_notification cfg mgr now (some f) false true).sent
      = true ∧
    (NotificationManager.send_email_notification cfg mgr now (some f) false
        true).imageAttached = false := by
  simp [NotificationManager.send_email_notification, hn, he, hcd]

/-- Witness for C7: a fresh manager, the default configuration, and an
evidence frame whose encoding fails. -/
theorem encoding_failure_still_sends_witness :
    (NotificationManager.send_email_notification defaultConfig ⟨none⟩ 0 (some (Frame.raw 0))
        false true).sent = true ∧
    (NotificationManager.send_email_notification defaultConfig ⟨none⟩ 0 (some (Frame.raw 0))
        false true).imageAttached = false :=
  encoding_failure_still_sends defaultConfig rfl rfl ⟨none⟩ 0 (Frame.raw 0) rfl

/-- C10: with notifications enabled but email disabled, `notify` returns
False for every manager state, time, evidence frame and external
outcome — email is the only channel that can set `success`. -/
theorem notify_email_disabled_never_sends (cfg : Config)
    (hn : cfg.NOTIFICATION_ENABLED = true) (he : cfg.EMAIL_ENABLED = false)
    (mgr : NotificationManager) (now : ℚ) (frame : Option Frame)
    (encodeOk transportOk : Bool) :
    (NotificationManager.notify cfg mgr now frame encodeOk transportOk).1 = false := by
  simp [NotificationManager.notify, hn, he]

/-- Witness for C10: the email-off configuration with a fresh manager
and an evidence frame, every external call succeeding. -/
theorem notify_email_disabled_never_sends_witness :
    (NotificationManager.notify emailOffConfig ⟨none⟩ 0 (some (Frame.raw 0)) true true).1
      = false :=
  notify_email_disabled_never_sends emailOffConfig rfl rfl ⟨none⟩ 0 (some (Frame.raw 0))
    true true
